import Mathlib

/-!
NodeMCU gym access controller: configuration and component models.

The repository supplies one source file, `NodeMCU/config.h`, a table of
preprocessor definitions.  The first part of this development embeds that
table: every `#define` becomes a Lean constant of the same name, and the
header as a whole becomes the association list `config_h`.

The components that consume the configuration (QR Input Assembler, Feedback
Controller, Orchestrator) are not part of the source tree.  They are modelled
from the specification, each definition saying so in its doc comment, and they
take their tunable values from the embedded constants.
-/

namespace NodeMCU

/-! ## config.h -/

/-- Replacement text of a `#define`: nothing (include guard), a string literal,
an unsigned integer literal, or a boolean literal. -/
inductive DefineValue where
  | flag
  | str (s : String)
  | num (n : Nat)
  | bool (b : Bool)
deriving DecidableEq, Repr

-- WiFi Configuration
def WIFI_SSID : String := "YOUR_WIFI_NAME"
def WIFI_PASSWORD : String := "YOUR_WIFI_PASSWORD"

-- Server Configuration
def SERVER_HOST : String := "your-backend-server.com"
def SERVER_PORT : Nat := 5000
def VALIDATE_ENDPOINT : String := "/api/nodemcu/validate"
def STATUS_ENDPOINT : String := "/api/nodemcu/status"

-- Pin Configuration (NodeMCU GPIO pins)
def PIN_LED_GREEN : Nat := 2
def PIN_LED_RED : Nat := 16
def PIN_BUZZER : Nat := 14
def PIN_RELAY : Nat := 12
def PIN_BUTTON : Nat := 13
def PIN_QR_SCANNER : Nat := 4

-- Timing Configuration
def VALIDATION_TIMEOUT : Nat := 10000
def WIFI_TIMEOUT : Nat := 30000
def HTTP_TIMEOUT : Nat := 5000

-- QR Code Configuration
def QR_SEPARATOR : String := ":"
def QR_BUFFER_SIZE : Nat := 100

-- Debug Configuration
def DEBUG_MODE : Bool := true
def SERIAL_BAUD : Nat := 115200

-- LED Animation Configuration
def BLINK_FAST : Nat := 100
def BLINK_SLOW : Nat := 500
def BLINK_PROCESSING : Nat := 150

-- Sound Configuration
def SOUND_SUCCESS_FREQ : Nat := 1000
def SOUND_ERROR_FREQ : Nat := 400
def SOUND_DURATION : Nat := 200

/-- The header as the preprocessor sees it: the `#define` lines of config.h in
source order, each identifier paired with its replacement. -/
def config_h : List (String × DefineValue) :=
  [ ("CONFIG_H", .flag),
    ("WIFI_SSID", .str WIFI_SSID),
    ("WIFI_PASSWORD", .str WIFI_PASSWORD),
    ("SERVER_HOST", .str SERVER_HOST),
    ("SERVER_PORT", .num SERVER_PORT),
    ("VALIDATE_ENDPOINT", .str VALIDATE_ENDPOINT),
    ("STATUS_ENDPOINT", .str STATUS_ENDPOINT),
    ("PIN_LED_GREEN", .num PIN_LED_GREEN),
    ("PIN_LED_RED", .num PIN_LED_RED),
    ("PIN_BUZZER", .num PIN_BUZZER),
    ("PIN_RELAY", .num PIN_RELAY),
    ("PIN_BUTTON", .num PIN_BUTTON),
    ("PIN_QR_SCANNER", .num PIN_QR_SCANNER),
    ("VALIDATION_TIMEOUT", .num VALIDATION_TIMEOUT),
    ("WIFI_TIMEOUT", .num WIFI_TIMEOUT),
    ("HTTP_TIMEOUT", .num HTTP_TIMEOUT),
    ("QR_SEPARATOR", .str QR_SEPARATOR),
    ("QR_BUFFER_SIZE", .num QR_BUFFER_SIZE),
    ("DEBUG_MODE", .bool DEBUG_MODE),
    ("SERIAL_BAUD", .num SERIAL_BAUD),
    ("BLINK_FAST", .num BLINK_FAST),
    ("BLINK_SLOW", .num BLINK_SLOW),
    ("BLINK_PROCESSING", .num BLINK_PROCESSING),
    ("SOUND_SUCCESS_FREQ", .num SOUND_SUCCESS_FREQ),
    ("SOUND_ERROR_FREQ", .num SOUND_ERROR_FREQ),
    ("SOUND_DURATION", .num SOUND_DURATION) ]

/-- What an identifier expands to after the header has been included. -/
def expand (name : String) : Option DefineValue :=
  config_h.lookup name

/-- The identifiers the header defines, in source order. -/
def definedNames : List String :=
  config_h.map Prod.fst

/-- The six GPIO role assignments, in source order. -/
def pinAssignments : List Nat :=
  [PIN_LED_GREEN, PIN_LED_RED, PIN_BUZZER, PIN_RELAY, PIN_BUTTON, PIN_QR_SCANNER]

/-- The timeout, duration and blink-delay constants of the header, all in
milliseconds. -/
def millisecondConstants : List Nat :=
  [VALIDATION_TIMEOUT, WIFI_TIMEOUT, HTTP_TIMEOUT, SOUND_DURATION,
   BLINK_FAST, BLINK_SLOW, BLINK_PROCESSING]

/-! ## Settings shared by the components -/

/-- The separator character: the first (and only) character of the
`QR_SEPARATOR` string literal. -/
def separatorChar : Char :=
  QR_SEPARATOR.get 0

/-- Modelled from the spec: the immutable configuration value of the design
notes, built once at startup and handed to every component.  The header fixes
the first group of fields; the terminator byte, the retry ceiling, the denial
display duration and the test-pulse duration are named by the spec but have no
`#define`, so they stay parameters. -/
structure Settings where
  openDuration : Nat
  separator : Char
  maxCodeLength : Nat
  blinkFast : Nat
  blinkSlow : Nat
  blinkProcessing : Nat
  successFreq : Nat
  errorFreq : Nat
  toneDuration : Nat
  terminator : Char
  retryCeiling : Nat
  denyDisplay : Nat
  testDuration : Nat
deriving DecidableEq, Repr

/-- Modelled from the spec: the settings value whose header-backed fields are
read from config.h. -/
def Settings.ofHeader (terminator : Char) (retryCeiling denyDisplay testDuration : Nat) :
    Settings where
  openDuration := VALIDATION_TIMEOUT
  separator := separatorChar
  maxCodeLength := QR_BUFFER_SIZE
  blinkFast := BLINK_FAST
  blinkSlow := BLINK_SLOW
  blinkProcessing := BLINK_PROCESSING
  successFreq := SOUND_SUCCESS_FREQ
  errorFreq := SOUND_ERROR_FREQ
  toneDuration := SOUND_DURATION
  terminator := terminator
  retryCeiling := retryCeiling
  denyDisplay := denyDisplay
  testDuration := testDuration

/-! ## QR Input Assembler -/

/-- Modelled from the spec: the AccessRequest record of the data model (the
assembler source is not in the tree).  Scanner bytes are C `char`s, modelled
as `Char`; the two identifier fields are strings. -/
structure AccessRequest where
  ownerId : String
  memberId : String
  receivedAt : Nat
deriving DecidableEq, Repr

/-- Modelled from the spec: the assembler's internal state, the bounded buffer
of bytes accumulated so far. -/
structure Assembler where
  buffer : List Char
deriving DecidableEq, Repr

/-- Modelled from the spec: the reset assembler (empty buffer). -/
def Assembler.empty : Assembler :=
  ⟨[]⟩

/-- Modelled from the spec: parsing the accumulated bytes as
`ownerId<SEP>memberId`.  The owner field is everything before the first
separator and the member field everything after it; a missing separator, an
empty field, or a second separator makes the input malformed.  The bytes are
returned as they arrived (case-preserving). -/
def parseCode (sep : Char) (buf : List Char) : Option (List Char × List Char) :=
  match buf.dropWhile (fun c => c != sep) with
  | [] => none
  | _ :: member =>
    let owner := buf.takeWhile (fun c => c != sep)
    if owner = [] ∨ member = [] ∨ sep ∈ member then none else some (owner, member)

/-- Modelled from the spec: the result of a parse attempt as `push` returns
it, the two fields as strings stamped with the time of receipt. -/
def parseRequest (cfg : Settings) (now : Nat) (buf : List Char) : Option AccessRequest :=
  (parseCode cfg.separator buf).map
    (fun fields => ⟨String.mk fields.1, String.mk fields.2, now⟩)

/-- Modelled from the spec: `push(byte) -> Option<AccessRequest>` of the QR
Input Assembler, sentence by sentence of section 4.1.  The terminator byte
makes it attempt to parse the accumulated bytes.  Any other byte is appended
to the buffer, and when that fills the buffer to its capacity (the buffer-full
condition) it attempts to parse the accumulated bytes as well.  A parse
attempt returns the request on success and nothing on malformed input, and
the buffer is reset after either outcome. -/
def push (cfg : Settings) (now : Nat) (st : Assembler) (b : Char) :
    Assembler × Option AccessRequest :=
  if b = cfg.terminator then
    (Assembler.empty, parseRequest cfg now st.buffer)
  else if (st.buffer ++ [b]).length < cfg.maxCodeLength then
    (⟨st.buffer ++ [b]⟩, none)
  else
    (Assembler.empty, parseRequest cfg now (st.buffer ++ [b]))

/-- Modelled from the spec: feeding a byte sequence to `push`, one byte at a
time, collecting every AccessRequest that is yielded on the way. -/
def pushAll (cfg : Settings) (now : Nat) : Assembler → List Char → Assembler × List AccessRequest
  | st, [] => (st, [])
  | st, b :: bs =>
    let r := push cfg now st b
    let rest := pushAll cfg now r.1 bs
    (rest.1, r.2.toList ++ rest.2)

/-! ## Feedback Controller -/

/-- Modelled from the spec: the `lights` directive of a FeedbackCommand. -/
inductive Lights where
  | greenOn
  | redOn
  | off
  | blink (rate : Nat)
deriving DecidableEq, Repr

/-- Modelled from the spec: the `buzzer` directive of a FeedbackCommand. -/
inductive Buzzer where
  | tone (freq : Nat) (durationMs : Nat)
  | silent
deriving DecidableEq, Repr

/-- Modelled from the spec: the `relay` directive of a FeedbackCommand. -/
inductive Relay where
  | engage (durationMs : Nat)
  | release
deriving DecidableEq, Repr

/-- Modelled from the spec: the one-shot FeedbackCommand of the data model. -/
structure FeedbackCommand where
  lights : Lights
  buzzer : Buzzer
  relay : Relay
deriving DecidableEq, Repr

/-- Modelled from the spec: the runtime timers the Feedback Controller owns.
`relay` holds the release deadline while the relay is engaged, `buzzer` the
frequency and stop deadline while a tone sounds; `lit` is the current phase of
the commanded light and `toggleAt` the next blink deadline. -/
structure Feedback where
  lights : Lights
  lit : Bool
  toggleAt : Nat
  buzzer : Option (Nat × Nat)
  relay : Option Nat
deriving DecidableEq, Repr

/-- Modelled from the spec: all outputs off, relay released. -/
def Feedback.quiet : Feedback :=
  ⟨.off, false, 0, none, none⟩

/-- Modelled from the spec: `apply(FeedbackCommand)`.  The new command replaces
whatever was in flight.  An `Engage(durationMs)` activates the relay and
records the release deadline, the requested duration being clamped to the
configured access-open duration. -/
def Feedback.apply (cfg : Settings) (now : Nat) (cmd : FeedbackCommand) : Feedback where
  lights := cmd.lights
  lit := match cmd.lights with
    | .off => false
    | _ => true
  toggleAt := match cmd.lights with
    | .blink rate => now + rate
    | _ => 0
  buzzer := match cmd.buzzer with
    | .tone freq durationMs => some (freq, now + durationMs)
    | .silent => none
  relay := match cmd.relay with
    | .engage durationMs => some (now + min durationMs cfg.openDuration)
    | .release => none

/-- Modelled from the spec: `tick(now)`.  Every time-bounded effect whose
deadline has elapsed is turned off (relay released, buzzer stopped) and a
blinking light toggles on its deadline and schedules the next one. -/
def Feedback.tick (now : Nat) (st : Feedback) : Feedback where
  lights := st.lights
  lit := match st.lights with
    | .blink _ => if st.toggleAt ≤ now then !st.lit else st.lit
    | _ => st.lit
  toggleAt := match st.lights with
    | .blink rate => if st.toggleAt ≤ now then now + rate else st.toggleAt
    | _ => st.toggleAt
  buzzer := st.buzzer.filter (fun tone => now < tone.2)
  relay := st.relay.filter (fun releaseAt => now < releaseAt)

/-- Modelled from the spec: the loop calling `tick` once per iteration, at the
clock readings given. -/
def Feedback.ticks (st : Feedback) (clock : List Nat) : Feedback :=
  clock.foldl (fun s now => s.tick now) st

/-- Modelled from the spec: whether the relay output is currently active. -/
def Feedback.relayEngaged (st : Feedback) : Bool :=
  st.relay.isSome

/-! ## Orchestrator -/

/-- Modelled from the spec: the ValidationOutcome variant of the data model. -/
inductive ValidationOutcome where
  | granted
  | denied (reason : String)
  | networkError
  | timeout
  | malformedResponse
deriving DecidableEq, Repr

/-- Modelled from the spec: the two kinds of device error. -/
inductive ErrorKind where
  | networkUnavailable
  | protocolFault
deriving DecidableEq, Repr

/-- Modelled from the spec: the Orchestrator's enumerated state.  `validating`
carries the request in flight and the start timestamp of the current call. -/
inductive Phase where
  | idle
  | scanning
  | validating (req : AccessRequest) (startedAt : Nat)
  | granted
  | denied
  | error (kind : ErrorKind)
  | testing
deriving DecidableEq, Repr

/-- Modelled from the spec: DeviceState, the enumerated state with the deadline
of the current state and the counter of consecutive connectivity failures. -/
structure DeviceState where
  phase : Phase
  deadline : Nat
  failures : Nat
deriving DecidableEq, Repr

/-- Modelled from the spec: what the Orchestrator asks of its collaborators
during one tick: a `validate` call or a feedback command to `apply`. -/
inductive Effect where
  | validate (req : AccessRequest)
  | feedback (cmd : FeedbackCommand)
deriving DecidableEq, Repr

/-- Modelled from the spec: what one tick polls: the clock, a completed request
from the assembler, a debounced manual-trigger edge, the outcome of the
pending validation if it has resolved, and the link state. -/
structure TickInput where
  now : Nat
  request : Option AccessRequest
  trigger : Bool
  outcome : Option ValidationOutcome
  linkUp : Bool
deriving DecidableEq, Repr

/-- Modelled from the spec: feedback while a validation is in flight. -/
def processingCommand (cfg : Settings) : FeedbackCommand :=
  ⟨.blink cfg.blinkProcessing, .silent, .release⟩

/-- Modelled from the spec: feedback of the `Granted` state: relay engaged for
the configured access-open duration, green indicator, success tone. -/
def grantedCommand (cfg : Settings) : FeedbackCommand :=
  ⟨.greenOn, .tone cfg.successFreq cfg.toneDuration, .engage cfg.openDuration⟩

/-- Modelled from the spec: feedback of the `Denied` state: red indicator,
error tone, no relay action. -/
def deniedCommand (cfg : Settings) : FeedbackCommand :=
  ⟨.redOn, .tone cfg.errorFreq cfg.toneDuration, .release⟩

/-- Modelled from the spec: feedback of the `Error` states, distinct from
`Denied`: a red blink (fast for a network error, slow for a protocol fault)
with no tone and no relay action. -/
def errorCommand (cfg : Settings) : ErrorKind → FeedbackCommand
  | .networkUnavailable => ⟨.blink cfg.blinkFast, .silent, .release⟩
  | .protocolFault => ⟨.blink cfg.blinkSlow, .silent, .release⟩

/-- Modelled from the spec: feedback of the `Testing` state: green, tone and a
relay pulse. -/
def testCommand (cfg : Settings) : FeedbackCommand :=
  ⟨.greenOn, .tone cfg.successFreq cfg.toneDuration, .engage cfg.testDuration⟩

/-- Modelled from the spec: the idle indicator. -/
def idleCommand : FeedbackCommand :=
  ⟨.off, .silent, .release⟩

/-- Modelled from the spec: one tick of the access-control state machine,
transition by transition as section 4.4 lists them. -/
def step (cfg : Settings) (st : DeviceState) (inp : TickInput) : DeviceState × List Effect :=
  match st.phase with
  | .idle =>
    match inp.request with
    | some req =>
      (⟨.validating req inp.now, inp.now, st.failures⟩,
        [.validate req, .feedback (processingCommand cfg)])
    | none =>
      if inp.trigger then
        (⟨.testing, inp.now + cfg.testDuration, st.failures⟩, [.feedback (testCommand cfg)])
      else (st, [])
  | .scanning => (st, [])
  | .validating req _ =>
    match inp.outcome with
    | none => (st, [])
    | some .granted =>
      (⟨.granted, inp.now + cfg.openDuration, st.failures⟩, [.feedback (grantedCommand cfg)])
    | some (.denied _) =>
      (⟨.denied, inp.now + cfg.denyDisplay, st.failures⟩, [.feedback (deniedCommand cfg)])
    | some .malformedResponse =>
      (⟨.error .protocolFault, inp.now, st.failures⟩,
        [.feedback (errorCommand cfg .protocolFault)])
    | some _ =>
      if st.failures + 1 < cfg.retryCeiling then
        (⟨.validating req inp.now, inp.now, st.failures + 1⟩, [.validate req])
      else
        (⟨.error .networkUnavailable, inp.now, st.failures + 1⟩,
          [.feedback (errorCommand cfg .networkUnavailable)])
  | .granted =>
    if st.deadline ≤ inp.now then (⟨.idle, inp.now, 0⟩, [.feedback idleCommand]) else (st, [])
  | .denied =>
    if st.deadline ≤ inp.now then
      (⟨.idle, inp.now, st.failures⟩, [.feedback idleCommand])
    else (st, [])
  | .error .networkUnavailable =>
    if inp.linkUp then (⟨.idle, inp.now, 0⟩, [.feedback idleCommand]) else (st, [])
  | .error .protocolFault => (st, [])
  | .testing =>
    if st.deadline ≤ inp.now then
      (⟨.idle, inp.now, st.failures⟩, [.feedback idleCommand])
    else (st, [])

/-- C1: every parameter of the configuration contract is defined by config.h
under its own identifier (no identifier is defined twice), each listed name
expands to the constant of that name, and the constants whose values the
contract fixes have exactly those values. -/
theorem config_exposes_contract_parameters :
    definedNames.Nodup ∧
    (∀ name ∈ ["WIFI_SSID", "WIFI_PASSWORD", "SERVER_HOST", "SERVER_PORT",
        "VALIDATE_ENDPOINT", "STATUS_ENDPOINT", "PIN_LED_GREEN", "PIN_LED_RED",
        "PIN_BUZZER", "PIN_RELAY", "PIN_BUTTON", "PIN_QR_SCANNER",
        "VALIDATION_TIMEOUT", "WIFI_TIMEOUT", "HTTP_TIMEOUT", "QR_SEPARATOR",
        "QR_BUFFER_SIZE", "BLINK_FAST", "BLINK_SLOW", "BLINK_PROCESSING",
        "SOUND_SUCCESS_FREQ", "SOUND_ERROR_FREQ", "SOUND_DURATION",
        "DEBUG_MODE", "SERIAL_BAUD"], (expand name).isSome = true) ∧
    expand "WIFI_SSID" = some (.str WIFI_SSID) ∧
    expand "WIFI_PASSWORD" = some (.str WIFI_PASSWORD) ∧
    expand "SERVER_HOST" = some (.str SERVER_HOST) ∧
    expand "SERVER_PORT" = some (.num SERVER_PORT) ∧
    expand "VALIDATE_ENDPOINT" = some (.str VALIDATE_ENDPOINT) ∧
    expand "STATUS_ENDPOINT" = some (.str STATUS_ENDPOINT) ∧
    expand "PIN_LED_GREEN" = some (.num PIN_LED_GREEN) ∧
    expand "PIN_LED_RED" = some (.num PIN_LED_RED) ∧
    expand "PIN_BUZZER" = some (.num PIN_BUZZER) ∧
    expand "PIN_RELAY" = some (.num PIN_RELAY) ∧
    expand "PIN_BUTTON" = some (.num PIN_BUTTON) ∧
    expand "PIN_QR_SCANNER" = some (.num PIN_QR_SCANNER) ∧
    expand "VALIDATION_TIMEOUT" = some (.num 10000) ∧
    expand "WIFI_TIMEOUT" = some (.num 30000) ∧
    expand "HTTP_TIMEOUT" = some (.num 5000) ∧
    expand "QR_SEPARATOR" = some (.str ":") ∧
    expand "QR_BUFFER_SIZE" = some (.num 100) ∧
    expand "BLINK_FAST" = some (.num 100) ∧
    expand "BLINK_SLOW" = some (.num 500) ∧
    expand "BLINK_PROCESSING" = some (.num 150) ∧
    expand "SOUND_SUCCESS_FREQ" = some (.num 1000) ∧
    expand "SOUND_ERROR_FREQ" = some (.num 400) ∧
    expand "SOUND_DURATION" = some (.num 200) ∧
    expand "DEBUG_MODE" = some (.bool true) ∧
    expand "SERIAL_BAUD" = some (.num 115200) ∧
    VALIDATION_TIMEOUT = 10000 ∧ WIFI_TIMEOUT = 30000 ∧ HTTP_TIMEOUT = 5000 ∧
    QR_SEPARATOR = ":" ∧ QR_BUFFER_SIZE = 100 ∧
    BLINK_FAST = 100 ∧ BLINK_SLOW = 500 ∧ BLINK_PROCESSING = 150 ∧
    SOUND_SUCCESS_FREQ = 1000 ∧ SOUND_ERROR_FREQ = 400 ∧ SOUND_DURATION = 200 ∧
    DEBUG_MODE = true ∧ SERIAL_BAUD = 115200 := by
  refine ⟨by decide, by decide, ?_⟩
  decide

/-- C4: the configured separator is the one-character string ":" and the
configured maximum code length holds the shortest valid code (three
characters) as well as the ten-character scenario code. -/
theorem qr_separator_single_char_and_buffer_holds_code :
    QR_SEPARATOR.length = 1 ∧ QR_SEPARATOR = ":" ∧
    QR_SEPARATOR.toList = [':'] ∧
    3 ≤ QR_BUFFER_SIZE ∧
    "GYM42:MEM7".length = 10 ∧ "GYM42:MEM7".length ≤ QR_BUFFER_SIZE := by
  decide

/-- C6: each timeout, duration and blink-delay constant is strictly positive
and bounded (below 2^15, so it fits every C integer type), and adding it to
any timestamp gives a strictly later timestamp. -/
theorem millisecond_constants_positive_and_bounded :
    millisecondConstants =
      [VALIDATION_TIMEOUT, WIFI_TIMEOUT, HTTP_TIMEOUT, SOUND_DURATION,
       BLINK_FAST, BLINK_SLOW, BLINK_PROCESSING] ∧
    (∀ c ∈ millisecondConstants, 0 < c ∧ c < 2 ^ 15) ∧
    (∀ now : Nat, ∀ c ∈ millisecondConstants, now < now + c) := by
  refine ⟨rfl, by decide, ?_⟩
  intro now c hc
  have hpos : ∀ c ∈ millisecondConstants, 0 < c := by decide
  have := hpos c hc
  omega

/-- C7: the success and error tones have different, strictly positive
frequencies, and the grant and deny indicators sit on different pins. -/
theorem terminal_signatures_distinguishable :
    SOUND_SUCCESS_FREQ = 1000 ∧ SOUND_ERROR_FREQ = 400 ∧
    SOUND_SUCCESS_FREQ ≠ SOUND_ERROR_FREQ ∧
    0 < SOUND_SUCCESS_FREQ ∧ 0 < SOUND_ERROR_FREQ ∧
    PIN_LED_GREEN ≠ PIN_LED_RED := by
  decide

/-- C8: the three blink delays are pairwise distinct and ordered fast, then
processing, then slow. -/
theorem blink_rates_ordered :
    BLINK_FAST = 100 ∧ BLINK_PROCESSING = 150 ∧ BLINK_SLOW = 500 ∧
    BLINK_FAST < BLINK_PROCESSING ∧ BLINK_PROCESSING < BLINK_SLOW ∧
    [BLINK_FAST, BLINK_PROCESSING, BLINK_SLOW].Nodup := by
  decide

/-- C9: the six pin assignments are pairwise distinct, lie in 0..16, and avoid
the flash-reserved pins 6..11. -/
theorem pin_assignments_distinct_and_usable :
    pinAssignments.Nodup ∧
    (∀ p ∈ pinAssignments, p ≤ 16 ∧ ¬ (6 ≤ p ∧ p ≤ 11)) := by
  decide

/-- C10: the port is a valid TCP port, the host is non-empty, and the two
endpoint paths differ and each begins with a slash. -/
theorem backend_target_well_formed :
    SERVER_PORT = 5000 ∧ 1 ≤ SERVER_PORT ∧ SERVER_PORT ≤ 65535 ∧
    SERVER_HOST ≠ "" ∧ 0 < SERVER_HOST.length ∧
    VALIDATE_ENDPOINT ≠ STATUS_ENDPOINT ∧
    VALIDATE_ENDPOINT.toList.head? = some '/' ∧
    STATUS_ENDPOINT.toList.head? = some '/' := by
  decide


theorem dropWhile_nil_of_not_mem (sep : Char) (buf : List Char) (h : sep ∉ buf) :
    buf.dropWhile (fun c => c != sep) = [] := by
  induction buf with
  | nil => rfl
  | cons x xs ih =>
    have hx : x ≠ sep := fun e => h (by simp [e])
    have hxs : sep ∉ xs := fun e => h (by simp [e])
    simp [List.dropWhile_cons, hx, ih hxs]

theorem Feedback.ticks_relay (st : Feedback) (clock : List Nat) :
    (st.ticks clock).relay =
      st.relay.filter (fun releaseAt => clock.all (fun t => decide (t < releaseAt))) := by
  induction clock generalizing st with
  | nil => cases h : st.relay <;> simp [Feedback.ticks, Option.filter, h]
  | cons now rest ih =>
    have hstep : st.ticks (now :: rest) = (st.tick now).ticks rest := rfl
    rw [hstep, ih]
    cases h : st.relay with
    | none => simp [Feedback.tick, h, Option.filter]
    | some releaseAt =>
      by_cases hlt : now < releaseAt
      · simp [Feedback.tick, h, Option.filter, hlt]
      · simp [Feedback.tick, h, Option.filter, hlt]

theorem Feedback.relayEngaged_engage_iff (cfg : Settings) (now d : Nat) (lights : Lights)
    (buzzer : Buzzer) (clock : List Nat) :
    ((Feedback.apply cfg now ⟨lights, buzzer, .engage d⟩).ticks clock).relayEngaged = true ↔
      ∀ t ∈ clock, t < now + min d cfg.openDuration := by
  rw [Feedback.relayEngaged, Feedback.ticks_relay]
  simp only [Feedback.apply, Option.filter]
  split_ifs with h
  · simpa using h
  · simpa using h

/-! ## Orchestrator lemmas -/

/-- C2: whatever duration an `Engage` requests, the relay stays engaged exactly
while every tick so far came before `now + min d VALIDATION_TIMEOUT`, with
`VALIDATION_TIMEOUT = 10000`; the command issued on a `Granted` outcome asks
for exactly `VALIDATION_TIMEOUT`, so its relay is released by the first tick at
or after `now + 10000`; and once a tick at or after `now + 10000` has run the
relay is released no matter what was requested. -/
theorem relay_engagement_clamped_to_open_duration
    (terminator : Char) (retryCeiling denyDisplay testDuration : Nat) :
    VALIDATION_TIMEOUT = 10000 ∧
    (∀ (now d : Nat) (lights : Lights) (buzzer : Buzzer) (clock : List Nat),
      ((Feedback.apply (Settings.ofHeader terminator retryCeiling denyDisplay testDuration) now
          ⟨lights, buzzer, .engage d⟩).ticks clock).relayEngaged = true ↔
        ∀ t ∈ clock, t < now + min d VALIDATION_TIMEOUT) ∧
    (∀ (req : AccessRequest) (startedAt deadline failures : Nat) (now : Nat)
        (request : Option AccessRequest) (trigger linkUp : Bool) (clock : List Nat),
      (step (Settings.ofHeader terminator retryCeiling denyDisplay testDuration)
          ⟨.validating req startedAt, deadline, failures⟩
          ⟨now, request, trigger, some .granted, linkUp⟩).2 =
        [.feedback (grantedCommand
          (Settings.ofHeader terminator retryCeiling denyDisplay testDuration))] ∧
      (grantedCommand (Settings.ofHeader terminator retryCeiling denyDisplay testDuration)).relay =
        .engage 10000 ∧
      (((Feedback.apply (Settings.ofHeader terminator retryCeiling denyDisplay testDuration) now
          (grantedCommand (Settings.ofHeader terminator retryCeiling denyDisplay
            testDuration))).ticks clock).relayEngaged = true ↔
        ∀ t ∈ clock, t < now + 10000)) ∧
    (∀ (now d late : Nat) (lights : Lights) (buzzer : Buzzer) (before after : List Nat),
      ((Feedback.apply (Settings.ofHeader terminator retryCeiling denyDisplay testDuration) now
          ⟨lights, buzzer, .engage d⟩).ticks
            (before ++ (now + 10000 + late) :: after)).relayEngaged = false) := by
  refine ⟨rfl, ?_, ?_, ?_⟩
  · intro now d lights buzzer clock
    exact Feedback.relayEngaged_engage_iff _ now d lights buzzer clock
  · intro req startedAt deadline failures now request trigger linkUp clock
    refine ⟨by simp [step], rfl, ?_⟩
    have h := Feedback.relayEngaged_engage_iff
      (Settings.ofHeader terminator retryCeiling denyDisplay testDuration) now
      VALIDATION_TIMEOUT .greenOn (.tone SOUND_SUCCESS_FREQ SOUND_DURATION) clock
    simpa [grantedCommand, Settings.ofHeader, VALIDATION_TIMEOUT] using h
  · intro now d late lights buzzer before after
    have h := Feedback.relayEngaged_engage_iff
      (Settings.ofHeader terminator retryCeiling denyDisplay testDuration) now d lights buzzer
      (before ++ (now + 10000 + late) :: after)
    rw [Bool.eq_false_iff]
    intro hon
    have hlt := h.mp hon (now + 10000 + late) (by simp)
    have hmin : min d (Settings.ofHeader terminator retryCeiling denyDisplay
        testDuration).openDuration ≤ 10000 := Nat.min_le_right _ _
    omega

/-- Scenario D: the code `GYM42MEM7` has no separator, so feeding it followed
by a newline terminator yields nothing and leaves the buffer empty. -/
theorem assembler_scenario_no_separator :
    pushAll (Settings.ofHeader '\n' 3 2000 500) 7 Assembler.empty
        ("GYM42MEM7".toList ++ ['\n']) = (Assembler.empty, []) := by
  decide

end NodeMCU
